import Mathlib

/-!
Shallow embedding of the ucore-sdk client library (controller.ts, ucore.ts,
helpers.ts, index.ts) and proofs about its behaviour.

Modelling conventions:
* JavaScript `Error` objects are the `Err` structure (only the `message`
  field is observable here).
* The instance state carries the network the provider will resolve to and a
  flag saying whether the network promise has resolved; `netId` is the
  readiness gate from helpers.ts.
* A call handed to the external client library (`eth.read` / `eth.trx`) is
  an `EthCall` record; the outcome of such a call is supplied as a function
  argument, since eth.ts wraps a third-party RPC client.
* An `async` function's observable result is a `JsOutcome`: the promise
  resolves with a value, rejects with an error, or resolves with an Error
  object as its value (the `return e` pattern inside a catch block).
* `ethers.utils.keccak256` is implemented in full (Keccak-256 with the
  original 0x01 padding, as used by Ethereum) so that address
  checksumming is executable.
-/

/-- A JavaScript `Error` value; only its message is observed by the SDK. -/
structure Err where
  message : String
deriving DecidableEq, Repr

/-- The network object produced by `eth.getProviderNetwork`. -/
structure Network where
  name : String
  id : Nat
deriving DecidableEq, Repr

/-- Instance state relevant to network resolution: `resolvedNet` is the
network the constructor's `_networkPromise` resolves to, and `resolved`
records whether that promise has already run (it sets `_network` and
deletes `_networkPromise`). -/
structure UcoreState where
  resolvedNet : Network
  resolved : Bool
deriving DecidableEq, Repr

/-- helpers.ts `netId`: awaits `_networkPromise` when it is still present,
after which `_network` is set. -/
def netId (st : UcoreState) : UcoreState :=
  if st.resolved then st else { st with resolved := true }

/-- The TypeError raised by JavaScript when `this._network.name` is read
while `_network` is still undefined. -/
def jsTypeError : Err :=
  ⟨"TypeError: Cannot read properties of undefined"⟩

/-- Reading `this._network`: yields the network after resolution, raises a
TypeError before it. -/
def currentNetwork (st : UcoreState) : Except Err Network :=
  if st.resolved then .ok st.resolvedNet else .error jsTypeError

/-- One element of the `parameters` array given to `eth.read` / `eth.trx`. -/
inductive Param where
  | str (s : String)
  | num (n : Int)
  | list (l : List String)
  | big (n : Int)
  | undef
deriving DecidableEq, Repr

/-- A call delegated to the external client library: target contract
address, method, and parameter list. -/
structure EthCall where
  toAddr : String
  method : String
  params : List Param
deriving DecidableEq, Repr

/-- Observable result of one of the SDK's async functions. -/
inductive JsOutcome (α : Type) where
  | ok (v : α)
  | thrown (e : Err)
  | errValue (e : Err)
deriving DecidableEq, Repr

/-! ## Keccak-256 (the `ethers.utils.keccak256` dependency)

The permutation state is packed into a single natural number, lane `i`
occupying bits `64*i .. 64*i+63`. -/

def mask64 : Nat := 0xffffffffffffffff

/-- Rotate a 64-bit lane left by `n`. -/
def rotl64 (x n : Nat) : Nat :=
  ((x <<< n) ||| (x >>> (64 - n))) &&& mask64

/-- Extract lane `i` from a packed state. -/
def lane (st i : Nat) : Nat := (st >>> (64 * i)) &&& mask64

/-- Pack a list of lanes (head at the low bits). -/
def packLanes (ls : List Nat) : Nat :=
  ls.foldr (fun l acc => (acc <<< 64) ||| (l &&& mask64)) 0

/-- Keccak θ column parity. -/
def thetaC (st x : Nat) : Nat :=
  lane st x ^^^ lane st (x + 5) ^^^ lane st (x + 10) ^^^
    lane st (x + 15) ^^^ lane st (x + 20)

/-- Keccak θ column adjustment. -/
def thetaD (st x : Nat) : Nat :=
  thetaC st ((x + 4) % 5) ^^^ rotl64 (thetaC st ((x + 1) % 5)) 1

/-- Keccak θ step. -/
def thetaStep (st : Nat) : Nat :=
  packLanes ((List.range 25).map (fun i => lane st i ^^^ thetaD st (i % 5)))

/-- Combined ρ and π steps: output lane `d` takes source lane and rotation
from this table (index `x + 5*y`, standard Keccak offsets). -/
def rhoPiTable : List (Nat × Nat) :=
  [(0, 0), (6, 44), (12, 43), (18, 21), (24, 14),
   (3, 28), (9, 20), (10, 3), (16, 45), (22, 61),
   (1, 1), (7, 6), (13, 25), (19, 8), (20, 18),
   (4, 27), (5, 36), (11, 10), (17, 15), (23, 56),
   (2, 62), (8, 55), (14, 39), (15, 41), (21, 2)]

/-- Keccak ρ∘π step. -/
def rhoPiStep (st : Nat) : Nat :=
  packLanes (rhoPiTable.map (fun p => rotl64 (lane st p.1) p.2))

/-- Keccak χ step. -/
def chiStep (st : Nat) : Nat :=
  packLanes ((List.range 25).map (fun i =>
    lane st i ^^^
      ((lane st (5 * (i / 5) + (i % 5 + 1) % 5) ^^^ mask64) &&&
        lane st (5 * (i / 5) + (i % 5 + 2) % 5))))

/-- Keccak round constants. -/
def roundConstants : List Nat :=
  [1, 32898, 9223372036854808714,
   9223372039002292224, 32907, 2147483649,
   9223372039002292353, 9223372036854808585, 138,
   136, 2147516425, 2147483658,
   2147516555, 9223372036854775947, 9223372036854808713,
   9223372036854808579, 9223372036854808578, 9223372036854775936,
   32778, 9223372039002259466, 9223372039002292353,
   9223372036854808704, 2147483649, 9223372039002292232]

/-- One Keccak-f round (ι folded in as the final xor). -/
def keccakRound (st rc : Nat) : Nat :=
  chiStep (rhoPiStep (thetaStep st)) ^^^ rc

/-- The Keccak-f[1600] permutation. -/
def keccakF (st : Nat) : Nat := roundConstants.foldl keccakRound st

/-- Original Keccak multi-rate padding (0x01 … 0x80) for a single
rate-136 block; callers pass messages shorter than 136 bytes. -/
def padBlock (msg : List Nat) : List Nat :=
  if msg.length + 1 = 136 then msg ++ [0x81]
  else msg ++ 0x01 :: (List.replicate (136 - msg.length - 2) 0 ++ [0x80])

/-- Assemble one 64-bit lane from up to 8 little-endian bytes. -/
def bytesToLane (bs : List Nat) : Nat :=
  bs.foldr (fun b acc => (acc <<< 8) ||| (b % 256)) 0

/-- Keccak-256 digest (32 bytes) of a byte message shorter than the rate. -/
def keccak256Bytes (msg : List Nat) : List Nat :=
  let p := padBlock msg
  let st0 := packLanes ((List.range 17).map (fun i =>
    bytesToLane ((p.drop (8 * i)).take 8)))
  let st1 := keccakF st0
  (List.range 32).map (fun i => (st1 >>> (8 * i)) % 256)

/-- Lowercase hex digit for a nibble. -/
def hexCharOfNibble (v : Nat) : Char :=
  "0123456789abcdef".toList.getD v '0'

/-- The `ethers.utils.keccak256` output as a character list: `0x` followed by
64 lowercase hex digits. -/
def keccak256HexChars (msg : List Nat) : List Char :=
  '0' :: 'x' ::
    ((keccak256Bytes msg).map
      (fun b => [hexCharOfNibble (b / 16), hexCharOfNibble (b % 16)])).flatten

/-! ## `toChecksumAddress` (ucore.ts) -/

/-- Semantics of `parseInt(c, 16)` on a single character: a hex digit of either case
parses, anything else is NaN (`none`). -/
def hexVal (c : Char) : Option Nat :=
  let n := c.toNat
  if 48 ≤ n ∧ n ≤ 57 then some (n - 48)
  else if 97 ≤ n ∧ n ≤ 102 then some (n - 87)
  else if 65 ≤ n ∧ n ≤ 70 then some (n - 55)
  else none

/-- One character of the checksum loop: uppercase the original character
when the hash digit at the same string index is ≥ 8 (NaN compares false,
so the character is kept as-is for the `0x` positions and out-of-range
indices). -/
def checksumChar (hash : List Char) (i : Nat) (c : Char) : Char :=
  match hash.get? i with
  | none => c
  | some h =>
    match hexVal h with
    | none => c
    | some v => if 8 ≤ v then c.toUpper else c

/-- The checksum loop over the original address characters, tracking the
string index used to look into the hash. -/
def checksumMap (hash : List Char) (i : Nat) : List Char → List Char
  | [] => []
  | c :: cs => checksumChar hash i c :: checksumMap hash (i + 1) cs

/-- ucore.ts `toChecksumAddress`: lowercase the input, drop the `0x`,
take the char codes of the first 40 characters (the JS code throws —
`none` — when fewer than 40 are present), keccak-hash them, then rebuild
from the *original* characters, uppercasing where the hash digit at the
same index is ≥ 8. -/
def toChecksumAddress (a : String) : Option String :=
  let l := a.toList
  let chars := (l.map Char.toLower).drop 2
  if chars.length < 40 then none
  else
    let expanded := (chars.take 40).map (fun c => c.toNat % 256)
    let hash := keccak256HexChars expanded
    some (String.mk (checksumMap hash 0 l))

/-! ## ucore.ts (the `comp` module) -/

/-- A dynamically typed JavaScript argument, as far as the SDK's `typeof`
checks distinguish it. -/
inductive JsVal where
  | vstr (s : String)
  | vnum (n : Int)
  | vother
deriving DecidableEq, Repr

/-- The `signature` argument of `delegateBySig`: the `v`, `r`, `s` fields
(empty string when absent — the declared default) and whether the object
is extensible. -/
structure SigObj where
  extensible : Bool
  v : String
  r : String
  s : String
deriving DecidableEq, Repr

/-- The declared default `signature = { v: '', r: '', s: '' }` (an object
literal is extensible). -/
def defaultSig : SigObj := ⟨true, "", "", ""⟩

/-- ucore.ts `claimUcore`. The user address comes from
`this._provider.address` (falling back to `await this._provider.getAddress()`
when that is falsy and `getAddress` exists; this awaited call can reject,
and such a rejection IS caught). The final `return eth.trx(...)` returns
the transaction promise without awaiting it, so a rejection of that
promise bypasses the catch block and reaches the caller unmodified; the
catch block only sees errors raised before that point, prefixes their
message and returns the Error object as the resolution value. -/
def claimUcore (addr : String → String → String) (st : UcoreState)
    (providerAddress : Option String) (getAddr : Option (Except Err String))
    (client : EthCall → Except Err String) : JsOutcome String :=
  let st := netId st
  let userRes : Except Err (Option String) :=
    match providerAddress with
    | some a =>
      if a = "" then
        match getAddr with
        | none => .ok (some a)
        | some (.ok u) => .ok (some u)
        | some (.error e) => .error e
      else .ok (some a)
    | none =>
      match getAddr with
      | none => .ok none
      | some (.ok u) => .ok (some u)
      | some (.error e) => .error e
  match userRes with
  | .error e => .errValue ⟨"Ucore [claimUcore] | " ++ e.message⟩
  | .ok user =>
    match currentNetwork st with
    | .error e => .errValue ⟨"Ucore [claimUcore] | " ++ e.message⟩
    | .ok n =>
      let user : Param := match user with
        | some u => .str u
        | none => .undef
      match client ⟨addr n.name "Controller", "claimUcore(address)", [user]⟩ with
      | .ok v => .ok v
      | .error e => .thrown e

/-- ucore.ts `delegate`: gate, `typeof` check, checksum, then a `delegate`
transaction to the UCORE token of the resolved network. -/
def delegate (addr : String → String → String) (st : UcoreState)
    (a : JsVal) : Except Err EthCall :=
  let st := netId st
  match a with
  | .vstr s =>
    match toChecksumAddress s with
    | none =>
      .error ⟨"Ucore [delegate] | Argument `_address` must be a valid Ethereum address."⟩
    | some cs =>
      match currentNetwork st with
      | .error e => .error e
      | .ok n => .ok ⟨addr n.name "UCORE", "delegate", [.str cs]⟩
  | _ => .error ⟨"Ucore [delegate] | Argument `_address` must be a string."⟩

/-- ucore.ts `delegateBySig`: gate, then argument validation in source
order (address string check, checksum, nonce, expiry, signature shape),
then a `delegateBySig` transaction to the UCORE token address. -/
def delegateBySig (addr : String → String → String) (st : UcoreState)
    (a nonce expiry : JsVal) (sig : SigObj) : Except Err EthCall :=
  let st := netId st
  match a with
  | .vstr s =>
    match toChecksumAddress s with
    | none =>
      .error ⟨"Ucore [delegateBySig] | Argument `_address` must be a valid Ethereum address."⟩
    | some cs =>
      match nonce with
      | .vnum nonceN =>
        match expiry with
        | .vnum expiryN =>
          if ¬ sig.extensible ∨ sig.v = "" ∨ sig.r = "" ∨ sig.s = "" then
            .error ⟨"Ucore [delegateBySig] | Argument `signature` must be an object that contains the v, r, and s pieces of an EIP-712 signature."⟩
          else
            match currentNetwork st with
            | .error e => .error e
            | .ok n =>
              .ok ⟨addr n.name "UCORE", "delegateBySig",
                [.str cs, .num nonceN, .num expiryN, .str sig.v, .str sig.r, .str sig.s]⟩
        | _ => .error ⟨"Ucore [delegateBySig] | Argument `expiry` must be an integer."⟩
      | _ => .error ⟨"Ucore [delegateBySig] | Argument `nonce` must be an integer."⟩
  | _ => .error ⟨"Ucore [delegateBySig] | Argument `_address` must be a string."⟩

/-- One field declaration of an EIP-712 type. -/
structure TypedDataField where
  fieldName : String
  fieldType : String
deriving DecidableEq, Repr

/-- The EIP-712 domain built by `createDelegateSignature`. -/
structure EIP712Domain where
  name : String
  chainId : Nat
  verifyingContract : String
deriving DecidableEq, Repr

/-- The `Delegation` message built by `createDelegateSignature`. -/
structure DelegateSignatureMessage where
  delegatee : String
  nonce : Nat
  expiry : Nat
deriving DecidableEq, Repr

/-- The full typed-data package handed to the EIP-712 `sign` helper. -/
structure TypedData where
  domain : EIP712Domain
  primaryType : String
  message : DelegateSignatureMessage
  typesEIP712Domain : List TypedDataField
  typesDelegation : List TypedDataField
deriving DecidableEq, Repr

/-- The `types` literal of `createDelegateSignature`, domain part. -/
def delegationDomainType : List TypedDataField :=
  [⟨"name", "string"⟩, ⟨"chainId", "uint256"⟩, ⟨"verifyingContract", "address"⟩]

/-- The `types` literal of `createDelegateSignature`, message part. -/
def delegationMessageType : List TypedDataField :=
  [⟨"delegatee", "address"⟩, ⟨"nonce", "uint256"⟩, ⟨"expiry", "uint256"⟩]

/-- The user-address lookup shared by `claimUcore` and
`createDelegateSignature`: `this._provider.address`, falling back to
`getAddress()` when that is falsy. -/
def resolveUserAddress (providerAddress getAddr : Option String) : Option String :=
  match providerAddress with
  | some a => if a = "" then getAddr else some a
  | none => getAddr

/-- ucore.ts `createDelegateSignature`: gate, then build the typed data:
domain name `'Ucore'`, chainId of the resolved network, the per-network
UCORE address as verifying contract; the nonce is read from the UCORE
contract's `nonces` mapping for the user's address; primary type
`'Delegation'`; expiry defaults to `10e9`. `readNonce` models the
`eth.read` call, receiving the call descriptor. -/
def createDelegateSignature (addr : String → String → String)
    (st : UcoreState) (providerAddress getAddr : Option String)
    (readNonce : EthCall → Nat) (delegatee : String)
    (expiry : Nat := 10000000000) : TypedData :=
  let st := netId st
  let n := (netId st).resolvedNet
  let ucoreAddress := addr n.name "UCORE"
  let user : Param := match resolveUserAddress providerAddress getAddr with
    | some u => .str u
    | none => .undef
  let nonce := readNonce
    ⟨ucoreAddress, "function nonces(address) returns (uint)", [user]⟩
  { domain := ⟨"Ucore", n.id, ucoreAddress⟩
    primaryType := "Delegation"
    message := ⟨delegatee, nonce, expiry⟩
    typesEIP712Domain := delegationDomainType
    typesDelegation := delegationMessageType }

/-- ucore.ts `getMintableUAI`: argument validation first, then
`this._network.name` is read WITHOUT awaiting the `netId` gate; a read
failure propagates unmodified; a successful read whose first component is
nonzero (the contract's error code) is replaced by the SDK's own error. -/
def getMintableUAI (addr : String → String → String) (st : UcoreState)
    (a : JsVal) (client : EthCall → Except Err (List Int)) : JsOutcome String :=
  match a with
  | .vstr s =>
    match toChecksumAddress s with
    | none =>
      .thrown ⟨"Ucore [getMintableUAI] | Argument `_address` must be a valid Ethereum address."⟩
    | some cs =>
      match currentNetwork st with
      | .error e => .thrown e
      | .ok n =>
        match client ⟨addr n.name "Controller", "getMintableUAI", [.str cs]⟩ with
        | .error e => .thrown e
        | .ok res =>
          if res.length > 1 ∧ res.getD 0 99 = 0 then
            .ok (toString (res.getD 1 0))
          else
            .thrown ⟨"Ucore [getMintableUAI] | Contract error occured"⟩
  | _ => .thrown ⟨"Ucore [getMintableUAI] | Argument `_address` must be a string."⟩

/-- ucore.ts `getUAIMintRate`: reads `this._network.name` WITHOUT awaiting
the `netId` gate, then a `getUAIMintRate` read on the Controller. -/
def getUAIMintRate (addr : String → String → String) (st : UcoreState)
    (client : EthCall → Except Err String) : JsOutcome String :=
  match currentNetwork st with
  | .error e => .thrown e
  | .ok n =>
    match client ⟨addr n.name "Controller", "getUAIMintRate", []⟩ with
    | .ok v => .ok v
    | .error e => .thrown e

/-- ucore.ts `mintUAIGuardianPaused`: same ungated pattern as
`getUAIMintRate`. -/
def mintUAIGuardianPaused (addr : String → String → String) (st : UcoreState)
    (client : EthCall → Except Err String) : JsOutcome String :=
  match currentNetwork st with
  | .error e => .thrown e
  | .ok n =>
    match client ⟨addr n.name "Controller", "mintUAIGuardianPaused", []⟩ with
    | .ok v => .ok v
    | .error e => .thrown e

/-- ucore.ts `repayUAIGuardianPaused`: same ungated pattern. -/
def repayUAIGuardianPaused (addr : String → String → String) (st : UcoreState)
    (client : EthCall → Except Err String) : JsOutcome String :=
  match currentNetwork st with
  | .error e => .thrown e
  | .ok n =>
    match client ⟨addr n.name "Controller", "repayUAIGuardianPaused", []⟩ with
    | .ok v => .ok v
    | .error e => .thrown e

/-- ucore.ts `uaiController`: same ungated pattern. -/
def uaiController (addr : String → String → String) (st : UcoreState)
    (client : EthCall → Except Err String) : JsOutcome String :=
  match currentNetwork st with
  | .error e => .thrown e
  | .ok n =>
    match client ⟨addr n.name "Controller", "uaiController", []⟩ with
    | .ok v => .ok v
    | .error e => .thrown e

/-- ucore.ts `uaiMintRate`: same ungated pattern. -/
def uaiMintRate (addr : String → String → String) (st : UcoreState)
    (client : EthCall → Except Err String) : JsOutcome String :=
  match currentNetwork st with
  | .error e => .thrown e
  | .ok n =>
    match client ⟨addr n.name "Controller", "uaiMintRate", []⟩ with
    | .ok v => .ok v
    | .error e => .thrown e

/-- ucore.ts `mintedUAIOf`: argument validation, then the SAME ungated
network access, then a `mintedUAIOf` read on the Controller. -/
def mintedUAIOf (addr : String → String → String) (st : UcoreState)
    (a : JsVal) (client : EthCall → Except Err String) : JsOutcome String :=
  match a with
  | .vstr s =>
    match toChecksumAddress s with
    | none =>
      .thrown ⟨"Ucore [mintedUAIOf] | Argument `_address` must be a valid Ethereum address."⟩
    | some cs =>
      match currentNetwork st with
      | .error e => .thrown e
      | .ok n =>
        match client ⟨addr n.name "Controller", "mintedUAIOf", [.str cs]⟩ with
        | .ok v => .ok v
        | .error e => .thrown e
  | _ => .thrown ⟨"Ucore [mintedUAIOf] | Argument `_address` must be a string."⟩

/-- ucore.ts `mintedUAIs`: as `mintedUAIOf` with its own tag and method. -/
def mintedUAIs (addr : String → String → String) (st : UcoreState)
    (a : JsVal) (client : EthCall → Except Err String) : JsOutcome String :=
  match a with
  | .vstr s =>
    match toChecksumAddress s with
    | none =>
      .thrown ⟨"Ucore [mintedUAIs] | Argument `_address` must be a valid Ethereum address."⟩
    | some cs =>
      match currentNetwork st with
      | .error e => .thrown e
      | .ok n =>
        match client ⟨addr n.name "Controller", "mintedUAIs", [.str cs]⟩ with
        | .ok v => .ok v
        | .error e => .thrown e
  | _ => .thrown ⟨"Ucore [mintedUAIs] | Argument `_address` must be a string."⟩

/-- The `mintUAIAmount` / `repayUAIAmount` argument: string, number,
BigNumber, or anything else. -/
inductive JsAmount where
  | num (n : Int)
  | str (s : String)
  | big (n : Int)
  | other
deriving DecidableEq, Repr

/-- ucore.ts `mintUAI`: gate, `typeof` validation (tag `mintUAI`), then
the mantissa scaling and `BigNumber.from` conversion — floating point and
string parsing are abstracted into the `conv` outcome, whose failure is
thrown OUTSIDE the try block. Inside the try, `return eth.trx(...)`
returns the promise without awaiting, so a transaction rejection bypasses
the catch and reaches the caller unmodified. -/
def mintUAI (addr : String → String → String) (st : UcoreState)
    (amount : JsAmount) (conv : Except Err Int)
    (client : EthCall → Except Err String) : JsOutcome String :=
  let st := netId st
  match amount with
  | .other =>
    .thrown ⟨"Ucore [mintUAI] | Argument `amount` must be a string, number, or BigNumber."⟩
  | _ =>
    match conv with
    | .error e => .thrown e
    | .ok b =>
      match currentNetwork st with
      | .error e => .errValue ⟨"Ucore [mintUAI] | " ++ e.message⟩
      | .ok n =>
        match client ⟨addr n.name "Controller", "mintUAI", [.big b]⟩ with
        | .ok v => .ok v
        | .error e => .thrown e

/-- ucore.ts `repayUAI`: identical shape to `mintUAI`, but note the source
tags its VALIDATION error `'Ucore [mintUAI] | '` (a copy-paste slip); only
the catch block uses the `repayUAI` tag. -/
def repayUAI (addr : String → String → String) (st : UcoreState)
    (amount : JsAmount) (conv : Except Err Int)
    (client : EthCall → Except Err String) : JsOutcome String :=
  let st := netId st
  match amount with
  | .other =>
    .thrown ⟨"Ucore [mintUAI] | Argument `amount` must be a string, number, or BigNumber."⟩
  | _ =>
    match conv with
    | .error e => .thrown e
    | .ok b =>
      match currentNetwork st with
      | .error e => .errValue ⟨"Ucore [repayUAI] | " ++ e.message⟩
      | .ok n =>
        match client ⟨addr n.name "Controller", "repayUAI", [.big b]⟩ with
        | .ok v => .ok v
        | .error e => .thrown e

/-! ## controller.ts -/

/-- The `markets` argument of `enterMarkets`: a string, an array of
strings, or anything else. -/
inductive MarketsArg where
  | str (s : String)
  | arr (l : List String)
  | other
deriving DecidableEq, Repr

/-- The per-symbol normalization `if (markets[i][0] !== 'v') markets[i] =
'v' + markets[i]` (an empty string has no character 0, so `'v'` is
prepended to it as well). -/
def normalizeMarket (m : String) : String :=
  if m.toList.head? = some 'v' then m else "v" ++ m

/-- The `enterMarkets` loop: normalize each symbol, throw at the first one
that is not a recognized vToken, otherwise collect its per-network
address. -/
def enterMarketsLoop (addr : String → String → String)
    (vTokens : List String) (netName : String) :
    List String → Except Err (List String)
  | [] => .ok []
  | m :: rest =>
    let m := normalizeMarket m
    if m ∈ vTokens then
      (enterMarketsLoop addr vTokens netName rest).map
        (fun as => addr netName m :: as)
    else
      .error ⟨"Ucore [enterMarkets] | Provided market `" ++ m ++
        "` is not a recognized vToken."⟩

/-- controller.ts `enterMarkets`: gate, wrap a plain string into a
one-element array, reject non-arrays, run the loop, and forward the
collected address array as the single parameter of an `enterMarkets`
transaction to the Controller. -/
def enterMarkets (addr : String → String → String) (vTokens : List String)
    (st : UcoreState) (markets : MarketsArg) : Except Err EthCall :=
  let st := netId st
  let msE : Except Err (List String) :=
    match markets with
    | .str s => .ok [s]
    | .arr l => .ok l
    | .other =>
      .error ⟨"Ucore [enterMarkets] | Argument `markets` must be an array or string."⟩
  match msE with
  | .error e => .error e
  | .ok ms =>
    match currentNetwork st with
    | .error e => .error e
    | .ok n =>
      match enterMarketsLoop addr vTokens n.name ms with
      | .error e => .error e
      | .ok addrs =>
        .ok ⟨addr n.name "Controller", "enterMarkets", [.list addrs]⟩

/-- The `market` argument of `exitMarket`: a string or anything else. -/
inductive MarketArg where
  | str (s : String)
  | notStr
deriving DecidableEq, Repr

/-- controller.ts `exitMarket`: gate, reject non-strings and the empty
string, normalize, reject unrecognized vTokens, and forward the market's
vToken address as the single parameter of an `exitMarket` transaction to
the Controller. NOTE: the source's error tag is `'exitMarkets'`. -/
def exitMarket (addr : String → String → String) (vTokens : List String)
    (st : UcoreState) (market : MarketArg) : Except Err EthCall :=
  let st := netId st
  let mE : Except Err String :=
    match market with
    | .str s =>
      if s = "" then
        .error ⟨"Ucore [exitMarkets] | Argument `market` must be a string of a vToken market name."⟩
      else .ok s
    | .notStr =>
      .error ⟨"Ucore [exitMarkets] | Argument `market` must be a string of a vToken market name."⟩
  match mE with
  | .error e => .error e
  | .ok m =>
    let m := normalizeMarket m
    if m ∈ vTokens then
      match currentNetwork st with
      | .error e => .error e
      | .ok n =>
        .ok ⟨addr n.name "Controller", "exitMarket", [.str (addr n.name m)]⟩
    else
      .error ⟨"Ucore [exitMarkets] | Provided market `" ++ m ++
        "` is not a recognized vToken."⟩

/-! ## index.ts (the constructor) -/

/-- Modelled from the spec: the `decimals` table lives in constants.ts,
which is not part of the sources here; the spec describes it only as a
static network → decimals override object. Only the two fields the
constructor's resolution handler assigns are modelled; their initial
values are left abstract. -/
structure DecimalsTable where
  USDC : Int
  USDT : Int
deriving DecidableEq, Repr

/-- Module-level mutable state of the SDK: the single `decimals` object
exported from constants.ts and re-exported as `Ucore.decimals`. -/
structure SdkModule where
  decimals : DecimalsTable
deriving DecidableEq, Repr

/-- index.ts network-promise resolution handler: `instance.decimals =
decimals` stores a REFERENCE to the module-level object, and for chain id
56 or network name `'mainnet'` it assigns `USDC`/`USDT` to 18 on that
shared object — mutating the module state seen by `Ucore.decimals` and by
every other instance. -/
def resolveHandler (m : SdkModule) (network : Network) : SdkModule :=
  if network.id = 56 ∨ network.name = "mainnet" then
    { decimals := { m.decimals with USDC := 18, USDT := 18 } }
  else m

/-- Reading `instance.decimals` after resolution: an alias of the module-level
object. -/
def instanceDecimals (m : SdkModule) : DecimalsTable := m.decimals

/-- A function value stored on the constructed instance, tagged by the
module it was taken from. -/
inductive FuncRef where
  | controllerFn (name : String)
  | vTokenFn (name : String)
  | priceFeedFn (name : String)
  | govFn (name : String)
  | compFn (name : String)
deriving DecidableEq, Repr

/-- The names exported by ucore.ts, imported as `comp` in index.ts. -/
def compExportedNames : List String :=
  ["getUcoreBalance", "getUcoreAccrued", "claimUcore", "delegate",
   "delegateBySig", "createDelegateSignature", "getMintableUAI",
   "getUAIMintRate", "mintUAIGuardianPaused", "repayUAIGuardianPaused",
   "mintedUAIOf", "mintedUAIs", "uaiController", "uaiMintRate",
   "mintUAI", "repayUAI"]

/-- Property access on the `comp` module: a defined export or
`undefined`. -/
def compModuleExport (name : String) : Option FuncRef :=
  if name ∈ compExportedNames then some (.compFn name) else none

/-- The controller.ts module spread into the instance. -/
def controllerModuleExport (name : String) : Option FuncRef :=
  if name ∈ ["enterMarkets", "exitMarket"] then some (.controllerFn name)
  else none

/-- The explicitly written keys of the instance object literal in
index.ts; each one's value is `comp.<same name>`. -/
def explicitInstanceKeys : List String :=
  ["claimUcore", "delegate", "delegateBySig", "createDelegateSignature",
   "getMintableVAI", "getVAIMintRate", "mintVAIGuardianPaused",
   "repayVAIGuardianPaused", "mintedVAIOf", "mintedVAIs", "vaiController",
   "vaiMintRate", "mintVAI", "repayVAI"]

/-- index.ts instance construction: the object literal spreads
`controller`, `vToken`, `priceFeed` and `gov` (later spreads win), then
the explicitly written keys override everything with `comp.<name>`
lookups. The three modules that are outside the given sources are
abstract parameters. -/
def mkInstance (vtok pf gov : String → Option FuncRef)
    (name : String) : Option FuncRef :=
  if name ∈ explicitInstanceKeys then compModuleExport name
  else
    match gov name with
    | some f => some f
    | none =>
      match pf name with
      | some f => some f
      | none =>
        match vtok name with
        | some f => some f
        | none => controllerModuleExport name

/-! ## Concrete Keccak evaluation for the EIP-55 example address

The deep 24-round computation is staged into one lemma per round so that
each proof reduces within the default recursion limits. -/

/-- The ASCII bytes of the lowercased example address body. -/
def exampleAddrBytes : List Nat :=
  [53, 97, 97, 101, 98, 54, 48, 53, 51, 102, 51, 101, 57, 52, 99, 57, 98, 57, 97, 48, 57, 102, 51, 51, 54, 54, 57, 52, 51, 53, 101, 55, 101, 102, 49, 98, 101, 97, 101, 100]

/-- Keccak state literal number 0 for the example address. -/
def kstate0 : Nat :=
  1658079259093488585543641880321370579349968074867852233579735924960709341741017881738939463282172923864572541864483323178105313176664420162494573772314529873277070739673631632297712908223227628267436176822048727601659965304215082590053163911394197029289116944542493335348868760736426975606647675195360837948843362280540299419957

/-- Keccak state literal number 1 for the example address. -/
def kstate1 : Nat :=
  34911705247598161156912708384814890602185747267805009523730966214243797327714089192816958745467727923186624447330872536109529912531198492924350906391337217689937016895473753096361688967507610974243446550447921304194790242483743052820486734198880472937546263060166257260478277628261089474290161482802120610139819422156703868492113666398134748650035813686154899735254061138542622965092504850958738772239122673488164974568895449140613319552214821206227625695629616945991910492983276310

/-- Keccak state literal number 2 for the example address. -/
def kstate2 : Nat :=
  16290085395559970933198878314068900348260957739441848234145715113054445520304334812005054382448395567263418782331648021358714386513317937855317825825095508731142355978392832980005173134685538961629663160182556677809261189518610928249697148198131442451254489877200192931240157387129722502265552686194326056889363504692955292416715742187599456985227324688037952367939547198660675637707005950467439752609425726797976501149874626233463938858094945983028831725239669147747350021986541786

/-- Keccak state literal number 3 for the example address. -/
def kstate3 : Nat :=
  22712380416014791845770771144943539030064166462873504309934753501300836363909078504721912853148221313507993009853639606534501068825916344905491746909078281852213294925084508690510874866561138508264362590093939858091194950383598996612309038384535067626210634285231300232596133397863932797741097544769606747169399053369736007587207808905144819468542242228268987855372259209151287413533657490344958366500604047061324480646449431421295635495319300000858480266126393012656211656223021635

/-- Keccak state literal number 4 for the example address. -/
def kstate4 : Nat :=
  23865510223189948562860194568302887848737112286438846293265284728465457405653853205060392154584849459993058046327528590498954446432790279005007799046413586650937586146631989502941313163934868750519773718545462608134893201990480713671987153193106161637990682933502675755318343885732229171516091509202398706113218779100478390787385364318293124625431411720178130271205029865361598557975532430577081887563421413440964223320943204539101293118936217651109538966281036750081152963217687247

/-- Keccak state literal number 5 for the example address. -/
def kstate5 : Nat :=
  5588659466757924773603322076603553811564638205183734494317177034115062593655402666634234734516858662325237766230253989495189581315312231618653895722651445490028024329480831456077081406924402138061377177510141589109364573881341527423366695992421046731840238066379874135738746808386118611752567697435461225697242026016441837352519052229661184612924684042881755196964457416232937890701566780026093249693455790750274866998555909546625978177698746970146743599443993096214556306119530983

/-- Keccak state literal number 6 for the example address. -/
def kstate6 : Nat :=
  21479006062704709548901229154277614556140887585971709594283577880243810589720006864297393478221170987614212722670713375692587878521727574890531502920592468952003735767556366233247562359587229252597575455985170288050340922904847582191727183388569805192488798066432285721484056639163837587161745169157093866189082106749062269374618568203174305236560010836537303051454880413017285322606259178035624556633706402244645203538746281926918326551950243904229823345945934338935172397411914800

/-- Keccak state literal number 7 for the example address. -/
def kstate7 : Nat :=
  7107032737914386646195178680281183987437882587155916931418233236325009354986000595973249638928578460014708500936406926968059852966039300533706727787896223341881208558580250014126194656403824914650608650441653207685767778067017544804467804531017763948780216211657776311855291043886670463553617436805337786386175790999692082240403706340653412298564309132686883853593802186039052393253662103424683460420100125844066874824429552663146386415725085553389442434451635040765557529905029670

/-- Keccak state literal number 8 for the example address. -/
def kstate8 : Nat :=
  12499217887642824658989300426429282696087586852108215512503226969920371863500232900883819304855157945847054758083577768942723254256430751670377792256052010331650363448881348196877013654130037186504490563941188034968181764871219503843892778965242247146265534597635287265579697330709226974334209485692157663360643005080197721758326295972393593206526536566903355122871703700987833677843450511726385904808953805532225957690306643872655156119279503584526089761226611137307387187670378678

/-- Keccak state literal number 9 for the example address. -/
def kstate9 : Nat :=
  4888790075305466108383401167573932593601461083849807386200273819774810867778184584536723970216178236519754573801555734116801342353245756509492758634203984347429792048773742635459102547592618892481307858256666779188530626176092576078740783453865205303761666264301241601136776124222334066747104123070633774077907064686793950897722244822806653079676853315553306074419109618094429293506163507047179297764264124017428662437947993575697459308919745008597096712251352754047725647042658694

/-- Keccak state literal number 10 for the example address. -/
def kstate10 : Nat :=
  20461964197041565911102802058342895679569418933673823481635073186841106825518539300103276491718659023123883284251470882316183661974597329780671375154225119760825664041265054837872738133256618232851232509584754794711925449393855630464993774767114581947128958886157528723030636117113905270079986887593395508651785914713113528868760572013595154520897013192982631637083410254407235866116146327557472074224030111222640340452646754725682228788189704266557870988803400064538605627784387297

/-- Keccak state literal number 11 for the example address. -/
def kstate11 : Nat :=
  34655211441280177704332450215241631224531822929853986340019687333985044436734510754529074912305263895406252246823114558063226147660494217925821448122350694558139991720288819852517080680290549851105967132817802380729999868312148982692326124565769458958476824891476127899141466554718717215205772633684168756503174755815265782990710535558850801436690371493234096939366720133692597056944031454147107562792732268837428224735225934466006812052891398735666258178891220621245482621067594028

/-- Keccak state literal number 12 for the example address. -/
def kstate12 : Nat :=
  11492397522117325085949081606718135452005585935695749496863896577427599707682990211308390400742361570110420806281884439295097095705434592923184002282105263782242839091024746073229611761812982615218559280259185825056693367689321768818602685786617617072460548439368707786081996924863168398286513903607523829003082787945248853470478622001319693667010480292308653396455739004470624985676127254094517518904560807486061834502481247123178050756545980904387388232345727879977784614278396647

/-- Keccak state literal number 13 for the example address. -/
def kstate13 : Nat :=
  7393300659564212902003083276467254703332476742833918347137599826878397804608818818226321658885985997487318811819533900565423634543596800048227395864232149531350720429017314905294989434221108545565591814417288099861374618450862030931559316339382960454773612296728110994936516000882231274823320236275152407120527733916671856060685659869476448894135318264212178313248598165318690265021454019747855663834368509134027184882784214988037566028501903454248798370870821294042114205000479814

/-- Keccak state literal number 14 for the example address. -/
def kstate14 : Nat :=
  8910192648011872718521747920052047353708438316763481515076337947304044938668309518243875045719882417805961754042927147357631269460584153685801426754539618420620175829959018165428800236055195982805312482121903089306777801365929779670177728548496728707516003965418875929808909775307568638871842773811766615668830927565783707694248949309778341945625104159207318019420289840938536969968918130990035212695057533087924879773956091797203576009861496185084184021684300138657469912868935175

/-- Keccak state literal number 15 for the example address. -/
def kstate15 : Nat :=
  28126539757748106324569394740557779477719759432322618001606837087469224046104891650286039654566400544307636290935296319034411699642132174807063950105950166047160428790938878889204716662487077465749086083019048059882977427453306485594639285824863534006501747793860512285044706315136763200657482322527290489011904735143565334903772088771722256820312734341271433457825412920709845680247014834153340409464374390616326778726522329526311561950297054582321986290023663942687564721107945018

/-- Keccak state literal number 16 for the example address. -/
def kstate16 : Nat :=
  40776192718600518677689115078015278543477272919027812718502320500939445375480914292231518898742338442293124380261969223605553126657735048940940499798957987214784633578530142597711281732796044896181620765017380863607183455333974342031986926983416386934041678399466345281460387018016675130745664646610611399462406985336144279020013914053290524177476640948410069147070922341786956811007501245429169387102687568221221753482969978839087555299712852497707061772996745408302005965888923256

/-- Keccak state literal number 17 for the example address. -/
def kstate17 : Nat :=
  24863233300741369403416910872136760595455262501288276094812212687118175572197286224600809467531254012119337662840923421990637437747989196837610237350550983784814737752721386644940974507886827236166881369995698998326406760383487873682766944005049295974499089745034939819751328203160892751778408047681630750673332826566456672063939353662305300807898337811159128924987355373122091377969838076526809960570899115372241276078129641985196489285487294447937278646914935126987011256816620544

/-- Keccak state literal number 18 for the example address. -/
def kstate18 : Nat :=
  2676119421532394239302815025325686884672474496683942319338419523791807900508545138411352294316661792897935761465909154058806150118125682772422959684673036738223892755099455710641042128855708386105562911101544325575022959926538872775581040787110081797912561050423596902850655818890662683047266300610565625033042455172431054574903853235378935225563760084106648675343991290959923711632133798746588954177574135649108244591357440444751454486050327021763048672417386330586543969178856186

/-- Keccak state literal number 19 for the example address. -/
def kstate19 : Nat :=
  38514639005488141083159839723085548852843648548078514305325907794570540610831236164635785270865447203296141912225917704440215279453031280246206801640096807592221234189944162622151518480278925842717244765730990894254195123939755093892761182159544356728507618282650587398512163458246655080428548006960889585411510581701440765909469588276623924439222496757781074841458614137576939015623191252781880628691280771885613824840414346254818891634823183859998667351432531064567096988848652318

/-- Keccak state literal number 20 for the example address. -/
def kstate20 : Nat :=
  10995634690254891778686600103784914931597805679176802403735239848511731348189913934788320454356100138320731470915162485293323918539984386544119661753189909061662140634546032955304767978465667204279037526286707114231607748895518121628050987585969115140002846190395331974476242626406263705572439534270984185811071420160536624397947787019898242146277076084072576529851696267668305579499634396695827980302092221551799836920888373094633032106340470251413095616342050709572962972416456335

/-- Keccak state literal number 21 for the example address. -/
def kstate21 : Nat :=
  13781758118018945077302708571609610672774871369106875858403494394066987884134548615728344344962667999397541472876331486363889267266981884782843220664894371929337639581728101450826526266945231256966816929164767220240582208633432538686270808353044888296811556302703329547857904564445959188595599892653703266830954461611653889382529320826170348633491315825266527111812969470218803252225206070844335263734402650855446340537150048463708654208025674712391781892469949392194830381733942268

/-- Keccak state literal number 22 for the example address. -/
def kstate22 : Nat :=
  9118085550807631032545665599323223062045419909861728588630953889815794891065021316283799027983562660153689211146451561339952186646942847559322966698842711660572728717374268382677232433191166618904091877069519203543233048793126538564395850209732798811092476056229096333481953270923978967167360641611161393791220829048749039009597012722328066725385466112677718296646299264355848049727704503000263637395247803732937531525499766591957304898527033298414773317054779376006714574540738655

/-- Keccak state literal number 23 for the example address. -/
def kstate23 : Nat :=
  16896269413937619580463298946353035209855149405125787374995097452666123129428192608346155835935659924207453284686899968696348365754966379788921794200676857535611941962059798443594034942408492628962394401189476642589977568056711483853596414231091065056036329382924062036163586699118943221266916174468089300619584701382483688067844005533983724205265316649500409588519272716811208794702362425950719516701706509380198683800522914678665091883100384522377812215209422800793943180341443865

/-- Keccak state literal number 24 for the example address. -/
def kstate24 : Nat :=
  21033421565537409241981753473660236561277604029818259844429111286419967510739082133350260660133733376502241662603716003579424848224820798873244260937281284402850777581024623471362716044330282751120185873797403677630711828829913118865135236639955779137996228668037720658316755901795507820850498840069195110286891539021175272559962845622959434951840917728969012060417270535463137383850409177486012975708629743781488646177139207477025194008882868644905967428698315229227460968824800723

/-- The hex string `ethers.utils.keccak256` returns for the example address. -/
def exampleHash : String :=
  "0xd385650ce8fdc6db7ee3a091d34814dbc4ce18219ffae52182efff4034d707e5"

/-- The lowercase spelling of the example address. -/
def exampleLow : String := "0x5aaeb6053f3e94c9b9a09f33669435e7ef1beaed"

/-- The EIP-55 checksummed spelling of the example address. -/
def exampleChk : String := "0x5aAeb6053F3E94C9b9A09f33669435E7Ef1BeAed"

/-- The all-uppercase spelling of the example address. -/
def exampleCaps : String := "0x5AAEB6053F3E94C9B9A09F33669435E7EF1BEAED"

/-- The characters a `0x`-prefixed hexadecimal address string can
contain. -/
def addrHexChars : List Char :=
  "0123456789abcdefABCDEFxX".toList

set_option maxRecDepth 4000 in
/-- The sponge input state assembled from the example address bytes. -/
theorem kinit :
    packLanes ((List.range 17).map (fun i =>
      bytesToLane (((padBlock exampleAddrBytes).drop (8 * i)).take 8))) = kstate0 := by
  decide

set_option maxRecDepth 4000 in
/-- Keccak round number 1 on the example address state. -/
theorem kround1 : keccakRound kstate0 1 = kstate1 := by
  decide

set_option maxRecDepth 4000 in
/-- Keccak round number 2 on the example address state. -/
theorem kround2 : keccakRound kstate1 32898 = kstate2 := by
  decide

set_option maxRecDepth 4000 in
/-- Keccak round number 3 on the example address state. -/
theorem kround3 : keccakRound kstate2 9223372036854808714 = kstate3 := by
  decide

set_option maxRecDepth 4000 in
/-- Keccak round number 4 on the example address state. -/
theorem kround4 : keccakRound kstate3 9223372039002292224 = kstate4 := by
  decide

set_option maxRecDepth 4000 in
/-- Keccak round number 5 on the example address state. -/
theorem kround5 : keccakRound kstate4 32907 = kstate5 := by
  decide

set_option maxRecDepth 4000 in
/-- Keccak round number 6 on the example address state. -/
theorem kround6 : keccakRound kstate5 2147483649 = kstate6 := by
  decide

set_option maxRecDepth 4000 in
/-- Keccak round number 7 on the example address state. -/
theorem kround7 : keccakRound kstate6 9223372039002292353 = kstate7 := by
  decide

set_option maxRecDepth 4000 in
/-- Keccak round number 8 on the example address state. -/
theorem kround8 : keccakRound kstate7 9223372036854808585 = kstate8 := by
  decide

set_option maxRecDepth 4000 in
/-- Keccak round number 9 on the example address state. -/
theorem kround9 : keccakRound kstate8 138 = kstate9 := by
  decide

set_option maxRecDepth 4000 in
/-- Keccak round number 10 on the example address state. -/
theorem kround10 : keccakRound kstate9 136 = kstate10 := by
  decide

set_option maxRecDepth 4000 in
/-- Keccak round number 11 on the example address state. -/
theorem kround11 : keccakRound kstate10 2147516425 = kstate11 := by
  decide

set_option maxRecDepth 4000 in
/-- Keccak round number 12 on the example address state. -/
theorem kround12 : keccakRound kstate11 2147483658 = kstate12 := by
  decide

set_option maxRecDepth 4000 in
/-- Keccak round number 13 on the example address state. -/
theorem kround13 : keccakRound kstate12 2147516555 = kstate13 := by
  decide

set_option maxRecDepth 4000 in
/-- Keccak round number 14 on the example address state. -/
theorem kround14 : keccakRound kstate13 9223372036854775947 = kstate14 := by
  decide

set_option maxRecDepth 4000 in
/-- Keccak round number 15 on the example address state. -/
theorem kround15 : keccakRound kstate14 9223372036854808713 = kstate15 := by
  decide

set_option maxRecDepth 4000 in
/-- Keccak round number 16 on the example address state. -/
theorem kround16 : keccakRound kstate15 9223372036854808579 = kstate16 := by
  decide

set_option maxRecDepth 4000 in
/-- Keccak round number 17 on the example address state. -/
theorem kround17 : keccakRound kstate16 9223372036854808578 = kstate17 := by
  decide

set_option maxRecDepth 4000 in
/-- Keccak round number 18 on the example address state. -/
theorem kround18 : keccakRound kstate17 9223372036854775936 = kstate18 := by
  decide

set_option maxRecDepth 4000 in
/-- Keccak round number 19 on the example address state. -/
theorem kround19 : keccakRound kstate18 32778 = kstate19 := by
  decide

set_option maxRecDepth 4000 in
/-- Keccak round number 20 on the example address state. -/
theorem kround20 : keccakRound kstate19 9223372039002259466 = kstate20 := by
  decide

set_option maxRecDepth 4000 in
/-- Keccak round number 21 on the example address state. -/
theorem kround21 : keccakRound kstate20 9223372039002292353 = kstate21 := by
  decide

set_option maxRecDepth 4000 in
/-- Keccak round number 22 on the example address state. -/
theorem kround22 : keccakRound kstate21 9223372036854808704 = kstate22 := by
  decide

set_option maxRecDepth 4000 in
/-- Keccak round number 23 on the example address state. -/
theorem kround23 : keccakRound kstate22 2147483649 = kstate23 := by
  decide

set_option maxRecDepth 4000 in
/-- Keccak round number 24 on the example address state. -/
theorem kround24 : keccakRound kstate23 9223372039002292232 = kstate24 := by
  decide

/-- The permutation applied to the example initial state. -/
theorem kperm : keccakF kstate0 = kstate24 := by
  simp only [keccakF, roundConstants, List.foldl]
  rw [kround1, kround2, kround3, kround4, kround5, kround6, kround7, kround8, kround9, kround10, kround11, kround12, kround13, kround14, kround15, kround16, kround17, kround18, kround19, kround20, kround21, kround22, kround23, kround24]

set_option maxRecDepth 4000 in
/-- The digest bytes of the example address. -/
theorem kdigest : keccak256Bytes exampleAddrBytes =
    [211, 133, 101, 12, 232, 253, 198, 219, 126, 227, 160, 145, 211, 72, 20, 219, 196, 206, 24, 33, 159, 250, 229, 33, 130, 239, 255, 64, 52, 215, 7, 229] := by
  simp only [keccak256Bytes]
  rw [kinit, kperm]
  decide

set_option maxRecDepth 4000 in
/-- The hash character list for the example address. -/
theorem khex : keccak256HexChars exampleAddrBytes = exampleHash.toList := by
  simp only [keccak256HexChars]
  rw [kdigest]
  decide

/-- Unfolding of `toChecksumAddress` when the input is long enough. -/
theorem toChecksumAddress_eq_of (a : String)
    (h : ¬ ((a.toList.map Char.toLower).drop 2).length < 40) :
    toChecksumAddress a =
      some (String.mk (checksumMap
        (keccak256HexChars ((((a.toList.map Char.toLower).drop 2).take 40).map
          (fun c => c.toNat % 256))) 0 a.toList)) := by
  simp only [toChecksumAddress, if_neg h]

set_option maxRecDepth 4000 in
/-- The hashed bytes of the lowercase spelling. -/
theorem exampleLow_bytes :
    (((exampleLow.toList.map Char.toLower).drop 2).take 40).map
      (fun c => c.toNat % 256) = exampleAddrBytes := by
  decide

set_option maxRecDepth 4000 in
/-- The hashed bytes of the all-uppercase spelling: identical, since the
input is lowercased before hashing. -/
theorem exampleCaps_bytes :
    (((exampleCaps.toList.map Char.toLower).drop 2).take 40).map
      (fun c => c.toNat % 256) = exampleAddrBytes := by
  decide

set_option maxRecDepth 4000 in
/-- The hashed bytes of the checksummed spelling: also identical. -/
theorem exampleChk_bytes :
    (((exampleChk.toList.map Char.toLower).drop 2).take 40).map
      (fun c => c.toNat % 256) = exampleAddrBytes := by
  decide

set_option maxRecDepth 4000 in
/-- Checksumming the lowercase spelling yields the EIP-55 form (this is
the EIP-55 reference vector for this address). -/
theorem checksum_exampleLow : toChecksumAddress exampleLow = some exampleChk := by
  rw [toChecksumAddress_eq_of _ (by decide), exampleLow_bytes, khex]
  decide

set_option maxRecDepth 4000 in
/-- Checksumming the all-uppercase spelling returns it unchanged: at
positions whose hash digit is below 8 the ORIGINAL character is kept, so
pre-existing uppercase survives. -/
theorem checksum_exampleCaps : toChecksumAddress exampleCaps = some exampleCaps := by
  rw [toChecksumAddress_eq_of _ (by decide), exampleCaps_bytes, khex]
  decide

/-! ## Shared lemmas -/

/-- After the `netId` gate, reading `this._network` always succeeds with
the network the promise resolves to. -/
theorem currentNetwork_netId (st : UcoreState) :
    currentNetwork (netId st) = .ok st.resolvedNet := by
  cases h : st.resolved <;> simp [netId, currentNetwork, h]

/-- The `enterMarkets` loop succeeds and collects the per-network
addresses when every normalized symbol is recognized. -/
theorem enterMarketsLoop_ok (addr : String → String → String)
    (vt : List String) (net : String) :
    ∀ ms : List String, (∀ m ∈ ms, normalizeMarket m ∈ vt) →
      enterMarketsLoop addr vt net ms =
        .ok (ms.map fun m => addr net (normalizeMarket m)) := by
  intro ms
  induction ms with
  | nil => intro _; rfl
  | cons m rest ih =>
    intro h
    simp only [enterMarketsLoop]
    rw [if_pos (h m (List.mem_cons_self m rest))]
    rw [ih (fun x hx => h x (List.mem_cons_of_mem m hx))]
    rfl

/-- The `enterMarkets` loop throws when some symbol normalizes to an
unrecognized vToken. -/
theorem enterMarketsLoop_err (addr : String → String → String)
    (vt : List String) (net : String) :
    ∀ ms m, m ∈ ms → normalizeMarket m ∉ vt →
      ∃ e, enterMarketsLoop addr vt net ms = .error e := by
  intro ms
  induction ms with
  | nil => intro m hm; exact absurd hm (List.not_mem_nil m)
  | cons hd rest ih =>
    intro m hm hbad
    simp only [enterMarketsLoop]
    by_cases hhd : normalizeMarket hd ∈ vt
    · rw [if_pos hhd]
      rcases List.mem_cons.mp hm with h | h
      · exact absurd hhd (h ▸ hbad)
      · rcases ih m h hbad with ⟨e, he⟩
        rw [he]
        exact ⟨e, rfl⟩
    · rw [if_neg hhd]
      exact ⟨_, rfl⟩

/-! ## Claim theorems -/

/-- Claim C2: the spec says each validation error is tagged with the
failing function's name, but the source tags `exitMarket`'s validation
errors `'exitMarkets'` and `repayUAI`'s validation error `'mintUAI'`
(copy-paste slips), as evaluating both embedded functions at malformed
inputs shows. -/
theorem claim2_validation_error_tags :
    exitMarket (fun n t => n ++ ":" ++ t) ["vSXP"] ⟨⟨"mainnet", 1⟩, true⟩ .notStr =
      .error ⟨"Ucore [exitMarkets] | Argument `market` must be a string of a vToken market name."⟩
    ∧ repayUAI (fun n t => n ++ ":" ++ t) ⟨⟨"mainnet", 1⟩, true⟩ .other (.ok 0)
        (fun _ => .ok "") =
      .thrown ⟨"Ucore [mintUAI] | Argument `amount` must be a string, number, or BigNumber."⟩
    ∧ ("exitMarkets" : String) ≠ "exitMarket"
    ∧ ("mintUAI" : String) ≠ "repayUAI" := by
  exact ⟨rfl, rfl, by decide, by decide⟩

/-- Claim C4: `enterMarkets` wraps a single string into a one-element
array; when every symbol (after the `v`-prepending normalization) is a
recognized vToken, it forwards the per-network address array as the
single parameter of an `enterMarkets` transaction to the Controller
address of the resolved network; when any symbol fails to normalize to a
recognized vToken it throws and issues no contract call. -/
theorem claim4_enterMarkets_spec (addr : String → String → String)
    (vt : List String) (st : UcoreState) :
    (∀ s, enterMarkets addr vt st (.str s) = enterMarkets addr vt st (.arr [s]))
    ∧ (∀ ms, (∀ m ∈ ms, normalizeMarket m ∈ vt) →
        enterMarkets addr vt st (.arr ms) =
          .ok ⟨addr st.resolvedNet.name "Controller", "enterMarkets",
            [.list (ms.map fun m => addr st.resolvedNet.name (normalizeMarket m))]⟩)
    ∧ (∀ ms m, m ∈ ms → normalizeMarket m ∉ vt →
        ∃ e, enterMarkets addr vt st (.arr ms) = .error e) := by
  refine ⟨fun s => rfl, fun ms h => ?_, fun ms m hm hbad => ?_⟩
  · simp only [enterMarkets, currentNetwork_netId]
    rw [enterMarketsLoop_ok addr vt st.resolvedNet.name ms h]
  · rcases enterMarketsLoop_err addr vt st.resolvedNet.name ms m hm hbad with ⟨e, he⟩
    simp only [enterMarkets, currentNetwork_netId]
    rw [he]
    exact ⟨e, rfl⟩

/-- A closed instance of claim C4's success branch: a mixed
plain/`v`-prefixed pair of recognized symbols maps to its address pair. -/
theorem claim4_witness :
    enterMarkets (fun n t => n ++ ":" ++ t) ["vSXP", "vUSDC"]
      ⟨⟨"mainnet", 56⟩, true⟩ (.arr ["SXP", "vUSDC"]) =
      .ok ⟨"mainnet:Controller", "enterMarkets",
        [.list ["mainnet:vSXP", "mainnet:vUSDC"]]⟩ :=
  (claim4_enterMarkets_spec (fun n t => n ++ ":" ++ t) ["vSXP", "vUSDC"]
    ⟨⟨"mainnet", 56⟩, true⟩).2.1 ["SXP", "vUSDC"] (by decide)

/-- Claim C5: `exitMarket` throws exactly on malformed input — a
non-string argument, the empty string, or a symbol whose normalization is
not a recognized vToken — and for a recognized market it completes
validation and forwards the market's vToken address as the single
parameter of an `exitMarket` transaction to the Controller address of the
resolved network. -/
theorem claim5_exitMarket_spec (addr : String → String → String)
    (vt : List String) (st : UcoreState) :
    (exitMarket addr vt st .notStr =
      .error ⟨"Ucore [exitMarkets] | Argument `market` must be a string of a vToken market name."⟩)
    ∧ (exitMarket addr vt st (.str "") =
      .error ⟨"Ucore [exitMarkets] | Argument `market` must be a string of a vToken market name."⟩)
    ∧ (∀ m, m ≠ "" → normalizeMarket m ∈ vt →
        exitMarket addr vt st (.str m) =
          .ok ⟨addr st.resolvedNet.name "Controller", "exitMarket",
            [.str (addr st.resolvedNet.name (normalizeMarket m))]⟩)
    ∧ (∀ m, m ≠ "" → normalizeMarket m ∉ vt →
        exitMarket addr vt st (.str m) =
          .error ⟨"Ucore [exitMarkets] | Provided market `" ++ normalizeMarket m ++
            "` is not a recognized vToken."⟩) := by
  refine ⟨rfl, rfl, fun m hne hvt => ?_, fun m hne hbad => ?_⟩
  · simp only [exitMarket, if_neg hne, if_pos hvt, currentNetwork_netId]
  · simp only [exitMarket, if_neg hne, if_neg hbad]

/-- A closed instance of claim C5's success branch. -/
theorem claim5_witness :
    exitMarket (fun n t => n ++ ":" ++ t) ["vSXP"] ⟨⟨"mainnet", 56⟩, true⟩
      (.str "SXP") =
      .ok ⟨"mainnet:Controller", "exitMarket", [.str "mainnet:vSXP"]⟩ :=
  (claim5_exitMarket_spec (fun n t => n ++ ":" ++ t) ["vSXP"]
    ⟨⟨"mainnet", 56⟩, true⟩).2.2.1 "SXP" (by decide) (by decide)

/-- Claim C6: `createDelegateSignature` builds exactly the required
EIP-712 package: domain `name = 'Ucore'`, `chainId` = the resolved
network's id, `verifyingContract` = the per-network UCORE token address;
primary type `'Delegation'`; message `delegatee` = the argument, `nonce`
read from the UCORE contract's `nonces` mapping for the user's address,
`expiry` = the argument with default `10e9`; and the declared field
types. -/
theorem claim6_typed_data_structure (addr : String → String → String)
    (st : UcoreState) (pa ga : Option String) (readNonce : EthCall → Nat)
    (delegatee : String) (expiry : Nat) :
    createDelegateSignature addr st pa ga readNonce delegatee expiry =
      { domain := ⟨"Ucore", st.resolvedNet.id, addr st.resolvedNet.name "UCORE"⟩
        primaryType := "Delegation"
        message := ⟨delegatee,
          readNonce ⟨addr st.resolvedNet.name "UCORE",
            "function nonces(address) returns (uint)",
            [match resolveUserAddress pa ga with
             | some u => .str u
             | none => .undef]⟩,
          expiry⟩
        typesEIP712Domain := delegationDomainType
        typesDelegation := delegationMessageType }
    ∧ createDelegateSignature addr st pa ga readNonce delegatee =
        createDelegateSignature addr st pa ga readNonce delegatee 10000000000 := by
  constructor
  · cases h : st.resolved <;> simp [createDelegateSignature, netId, h]
  · rfl

/-- Claim C7: `delegateBySig` rejects, before issuing any call: a
non-string address, an address failing the checksum routine, a non-number
nonce, a non-number expiry, and a signature object with a falsy `v`, `r`
or `s` (in particular the default all-empty signature); when every check
passes it forwards the checksummed address, nonce, expiry and the three
signature pieces to a `delegateBySig` transaction on the per-network
UCORE token address. -/
theorem claim7_delegateBySig_validation (addr : String → String → String)
    (st : UcoreState) :
    (∀ nonce expiry sig, delegateBySig addr st .vother nonce expiry sig =
      .error ⟨"Ucore [delegateBySig] | Argument `_address` must be a string."⟩)
    ∧ (∀ s nonce expiry sig, toChecksumAddress s = none →
        delegateBySig addr st (.vstr s) nonce expiry sig =
          .error ⟨"Ucore [delegateBySig] | Argument `_address` must be a valid Ethereum address."⟩)
    ∧ (∀ s cs ns expiry sig, toChecksumAddress s = some cs →
        delegateBySig addr st (.vstr s) (.vstr ns) expiry sig =
          .error ⟨"Ucore [delegateBySig] | Argument `nonce` must be an integer."⟩)
    ∧ (∀ s cs n es sig, toChecksumAddress s = some cs →
        delegateBySig addr st (.vstr s) (.vnum n) (.vstr es) sig =
          .error ⟨"Ucore [delegateBySig] | Argument `expiry` must be an integer."⟩)
    ∧ (∀ s cs n e sig, toChecksumAddress s = some cs →
        (sig.v = "" ∨ sig.r = "" ∨ sig.s = "") →
        delegateBySig addr st (.vstr s) (.vnum n) (.vnum e) sig =
          .error ⟨"Ucore [delegateBySig] | Argument `signature` must be an object that contains the v, r, and s pieces of an EIP-712 signature."⟩)
    ∧ (∀ s cs n e, toChecksumAddress s = some cs →
        delegateBySig addr st (.vstr s) (.vnum n) (.vnum e) defaultSig =
          .error ⟨"Ucore [delegateBySig] | Argument `signature` must be an object that contains the v, r, and s pieces of an EIP-712 signature."⟩)
    ∧ (∀ s cs n e sig, toChecksumAddress s = some cs →
        sig.extensible = true → sig.v ≠ "" → sig.r ≠ "" → sig.s ≠ "" →
        delegateBySig addr st (.vstr s) (.vnum n) (.vnum e) sig =
          .ok ⟨addr st.resolvedNet.name "UCORE", "delegateBySig",
            [.str cs, .num n, .num e, .str sig.v, .str sig.r, .str sig.s]⟩) := by
  refine ⟨fun _ _ _ => rfl, fun s nonce expiry sig h => ?_,
    fun s cs ns expiry sig h => ?_, fun s cs n es sig h => ?_,
    fun s cs n e sig h hsig => ?_, fun s cs n e h => ?_,
    fun s cs n e sig h hext hv hr hs => ?_⟩
  · simp only [delegateBySig, h]
  · simp only [delegateBySig, h]
  · simp only [delegateBySig, h]
  · simp only [delegateBySig, h]
    rw [if_pos (by tauto)]
  · simp only [delegateBySig, h, defaultSig]
    rw [if_pos (by simp [defaultSig])]
  · simp only [delegateBySig, h, currentNetwork_netId]
    rw [if_neg (by simp [hext, hv, hr, hs])]

/-- A closed instance of claim C7's success branch at the example
address. -/
theorem claim7_witness :
    delegateBySig (fun n t => n ++ ":" ++ t) ⟨⟨"mainnet", 56⟩, true⟩
      (.vstr exampleLow) (.vnum 42) (.vnum 9999999999)
      ⟨true, "0x1b", "0xaa", "0xbb"⟩ =
      .ok ⟨"mainnet:UCORE", "delegateBySig",
        [.str exampleChk, .num 42, .num 9999999999,
         .str "0x1b", .str "0xaa", .str "0xbb"]⟩ :=
  (claim7_delegateBySig_validation (fun n t => n ++ ":" ++ t)
    ⟨⟨"mainnet", 56⟩, true⟩).2.2.2.2.2.2 exampleLow exampleChk 42 9999999999
    ⟨true, "0x1b", "0xaa", "0xbb"⟩ checksum_exampleLow rfl
    (by decide) (by decide) (by decide)

/-- Claim C1: the eight UAI functions read `this._network` WITHOUT first
awaiting the `netId` readiness gate — on an instance whose network
promise has not yet resolved they raise a TypeError instead of waiting —
whereas the gated functions (`enterMarkets`, `delegate`) proceed normally
from the same state. -/
theorem claim1_uai_functions_skip_gate (addr : String → String → String)
    (vt : List String) (net : Network)
    (client : EthCall → Except Err String)
    (clientL : EthCall → Except Err (List Int)) :
    getUAIMintRate addr ⟨net, false⟩ client = .thrown jsTypeError
    ∧ mintUAIGuardianPaused addr ⟨net, false⟩ client = .thrown jsTypeError
    ∧ repayUAIGuardianPaused addr ⟨net, false⟩ client = .thrown jsTypeError
    ∧ uaiController addr ⟨net, false⟩ client = .thrown jsTypeError
    ∧ uaiMintRate addr ⟨net, false⟩ client = .thrown jsTypeError
    ∧ (∀ s cs, toChecksumAddress s = some cs →
        mintedUAIOf addr ⟨net, false⟩ (.vstr s) client = .thrown jsTypeError
        ∧ mintedUAIs addr ⟨net, false⟩ (.vstr s) client = .thrown jsTypeError
        ∧ getMintableUAI addr ⟨net, false⟩ (.vstr s) clientL = .thrown jsTypeError)
    ∧ enterMarkets addr vt ⟨net, false⟩ (.arr []) =
        .ok ⟨addr net.name "Controller", "enterMarkets", [.list []]⟩
    ∧ (∀ s cs, toChecksumAddress s = some cs →
        delegate addr ⟨net, false⟩ (.vstr s) =
          .ok ⟨addr net.name "UCORE", "delegate", [.str cs]⟩) := by
  refine ⟨rfl, rfl, rfl, rfl, rfl, fun s cs h => ?_, ?_, fun s cs h => ?_⟩
  · exact ⟨by simp [mintedUAIOf, h, currentNetwork],
      by simp [mintedUAIs, h, currentNetwork],
      by simp [getMintableUAI, h, currentNetwork]⟩
  · simp [enterMarkets, currentNetwork_netId, enterMarketsLoop]
  · simp [delegate, h, currentNetwork_netId]

/-- A closed instance of claim C1: with a valid address argument, the
ungated `mintedUAIOf` raises the TypeError on an unresolved instance
while the gated `delegate` succeeds from the same state. -/
theorem claim1_witness :
    mintedUAIOf (fun n t => n ++ ":" ++ t) ⟨⟨"mainnet", 56⟩, false⟩
      (.vstr exampleLow) (fun _ => .ok "0") = .thrown jsTypeError
    ∧ delegate (fun n t => n ++ ":" ++ t) ⟨⟨"mainnet", 56⟩, false⟩
        (.vstr exampleLow) =
      .ok ⟨"mainnet:UCORE", "delegate", [.str exampleChk]⟩ :=
  ⟨((claim1_uai_functions_skip_gate (fun n t => n ++ ":" ++ t) []
      ⟨"mainnet", 56⟩ (fun _ => .ok "0") (fun _ => .ok [])).2.2.2.2.2.1
      exampleLow exampleChk checksum_exampleLow).1,
    (claim1_uai_functions_skip_gate (fun n t => n ++ ":" ++ t) []
      ⟨"mainnet", 56⟩ (fun _ => .ok "0") (fun _ => .ok [])).2.2.2.2.2.2.2
      exampleLow exampleChk checksum_exampleLow⟩

/-- Claim C3: a rejection coming from the client library's transaction or
read call reaches the caller as the very same error: `claimUcore`,
`mintUAI` and `repayUAI` return the `eth.trx` promise from inside their
try blocks without awaiting it, so its rejection bypasses the catch, and
`getMintableUAI` performs its read with no surrounding catch. -/
theorem claim3_contract_errors_propagate (addr : String → String → String)
    (st : UcoreState) (e : Err) (amt b : Int) (s cs : String) :
    claimUcore addr st (some "0xuser") none (fun _ => .error e) = .thrown e
    ∧ mintUAI addr st (.num amt) (.ok b) (fun _ => .error e) = .thrown e
    ∧ repayUAI addr st (.num amt) (.ok b) (fun _ => .error e) = .thrown e
    ∧ (toChecksumAddress s = some cs → st.resolved = true →
        getMintableUAI addr st (.vstr s) (fun _ => .error e) = .thrown e) := by
  refine ⟨?_, ?_, ?_, fun h hres => ?_⟩
  · simp [claimUcore, currentNetwork_netId]
  · simp [mintUAI, currentNetwork_netId]
  · simp [repayUAI, currentNetwork_netId]
  · simp [getMintableUAI, h, currentNetwork, hres]

/-- A closed instance of claim C3: a revert error surfaces unmodified
from all four functions. -/
theorem claim3_witness :
    claimUcore (fun n t => n ++ ":" ++ t) ⟨⟨"mainnet", 56⟩, true⟩
      (some "0xuser") none (fun _ => .error ⟨"execution reverted"⟩) =
      .thrown ⟨"execution reverted"⟩
    ∧ getMintableUAI (fun n t => n ++ ":" ++ t) ⟨⟨"mainnet", 56⟩, true⟩
        (.vstr exampleLow) (fun _ => .error ⟨"execution reverted"⟩) =
      .thrown ⟨"execution reverted"⟩ :=
  ⟨(claim3_contract_errors_propagate (fun n t => n ++ ":" ++ t)
      ⟨⟨"mainnet", 56⟩, true⟩ ⟨"execution reverted"⟩ 1 1 exampleLow exampleChk).1,
    (claim3_contract_errors_propagate (fun n t => n ++ ":" ++ t)
      ⟨⟨"mainnet", 56⟩, true⟩ ⟨"execution reverted"⟩ 1 1 exampleLow
      exampleChk).2.2.2 checksum_exampleLow rfl⟩

/-- Claim C8 counterexample: a constructor whose provider resolves to
chain id 56 mutates the shared module-level decimals object (initial
values here taken as 6, the standard stablecoin decimals the override
exists to correct): afterwards `Ucore.decimals` — and the decimals seen
by every already-constructed instance, which alias the same object — read
18, not their prior values. -/
theorem claim8_decimals_counterexample :
    (resolveHandler ⟨⟨6, 6⟩⟩ ⟨"bsc", 56⟩).decimals ≠
      (⟨⟨6, 6⟩⟩ : SdkModule).decimals
    ∧ instanceDecimals (resolveHandler ⟨⟨6, 6⟩⟩ ⟨"bsc", 56⟩) = ⟨18, 18⟩ := by
  exact ⟨by decide, by decide⟩

/-- Claim C8 (amended): the module-level decimals object is NOT immutable
configuration: every instance aliases the single module object, and when
a provider resolves to chain id 56 or network name `'mainnet'` the
resolution handler sets `USDC` and `USDT` to 18 on that shared object
(thereby changing `Ucore.decimals` and the decimals seen by every other
instance whenever they were not already 18); for any other network the
handler leaves the module state unchanged. -/
theorem claim8_decimals_mutation (m : SdkModule) (net : Network) :
    (net.id = 56 ∨ net.name = "mainnet" →
      resolveHandler m net = ⟨⟨18, 18⟩⟩
      ∧ instanceDecimals (resolveHandler m net) = ⟨18, 18⟩)
    ∧ (¬(net.id = 56 ∨ net.name = "mainnet") → resolveHandler m net = m)
    ∧ instanceDecimals (resolveHandler m net) = (resolveHandler m net).decimals := by
  refine ⟨fun h => ?_, fun h => ?_, rfl⟩
  · simp [resolveHandler, instanceDecimals, if_pos h]
  · simp [resolveHandler, if_neg h]

/-- A closed instance of claim C8's amended statement: the mutation on a
chain-56 resolution, and the absence of one on an unrelated chain. -/
theorem claim8_witness :
    resolveHandler ⟨⟨6, 6⟩⟩ ⟨"bsc", 56⟩ = ⟨⟨18, 18⟩⟩
    ∧ resolveHandler ⟨⟨6, 6⟩⟩ ⟨"ropsten", 3⟩ = ⟨⟨6, 6⟩⟩ :=
  ⟨((claim8_decimals_mutation ⟨⟨6, 6⟩⟩ ⟨"bsc", 56⟩).1 (by decide)).1,
    (claim8_decimals_mutation ⟨⟨6, 6⟩⟩ ⟨"ropsten", 3⟩).2.1 (by decide)⟩

/-- Claim C10: the constructed instance binds `claimUcore`, `delegate`,
`delegateBySig` and `createDelegateSignature` to the comp module's
functions; its ten VAI-named properties are all `undefined` because the
comp module exports UAI-named functions only; and no property of the
instance, under any name, is one of the comp module's UAI-named functions
(`getMintableUAI`, `getUAIMintRate`, `mintUAI`, `repayUAI`). The three
spread modules not present in the given sources are abstract, assumed
only to export their own functions. -/
theorem claim10_instance_bindings (vtok pf gov : String → Option FuncRef)
    (hv : ∀ n f, vtok n = some f → ∃ m, f = .vTokenFn m)
    (hp : ∀ n f, pf n = some f → ∃ m, f = .priceFeedFn m)
    (hg : ∀ n f, gov n = some f → ∃ m, f = .govFn m) :
    mkInstance vtok pf gov "claimUcore" = some (.compFn "claimUcore")
    ∧ mkInstance vtok pf gov "delegate" = some (.compFn "delegate")
    ∧ mkInstance vtok pf gov "delegateBySig" = some (.compFn "delegateBySig")
    ∧ mkInstance vtok pf gov "createDelegateSignature" =
        some (.compFn "createDelegateSignature")
    ∧ (∀ n ∈ ["getMintableVAI", "getVAIMintRate", "mintVAIGuardianPaused",
        "repayVAIGuardianPaused", "mintedVAIOf", "mintedVAIs", "vaiController",
        "vaiMintRate", "mintVAI", "repayVAI"],
        mkInstance vtok pf gov n = none)
    ∧ (∀ name u, u ∈ ["getMintableUAI", "getUAIMintRate", "mintUAI", "repayUAI"] →
        mkInstance vtok pf gov name ≠ some (.compFn u)) := by
  refine ⟨?_, ?_, ?_, ?_, ?_, ?_⟩
  · simp only [mkInstance]; rw [if_pos (by decide)]; decide
  · simp only [mkInstance]; rw [if_pos (by decide)]; decide
  · simp only [mkInstance]; rw [if_pos (by decide)]; decide
  · simp only [mkInstance]; rw [if_pos (by decide)]; decide
  · intro n hn
    fin_cases hn <;> (simp only [mkInstance]; rw [if_pos (by decide)]; decide)
  · intro name u hu heq
    by_cases hex : name ∈ explicitInstanceKeys
    · rw [mkInstance, if_pos hex] at heq
      by_cases hcn : name ∈ compExportedNames
      · rw [compModuleExport, if_pos hcn] at heq
        have hnu : name = u := by
          have := Option.some.inj heq
          cases this
          rfl
        subst hnu
        fin_cases hu <;> revert hex <;> decide
      · rw [compModuleExport, if_neg hcn] at heq
        exact Option.noConfusion heq
    · rw [mkInstance, if_neg hex] at heq
      cases hgov : gov name with
      | some f =>
        rw [hgov] at heq
        rcases hg name f hgov with ⟨m, rfl⟩
        exact FuncRef.noConfusion (Option.some.inj heq)
      | none =>
        rw [hgov] at heq
        cases hpf : pf name with
        | some f =>
          rw [hpf] at heq
          rcases hp name f hpf with ⟨m, rfl⟩
          exact FuncRef.noConfusion (Option.some.inj heq)
        | none =>
          rw [hpf] at heq
          cases hvt : vtok name with
          | some f =>
            rw [hvt] at heq
            rcases hv name f hvt with ⟨m, rfl⟩
            exact FuncRef.noConfusion (Option.some.inj heq)
          | none =>
            rw [hvt] at heq
            by_cases hctl : name ∈ ["enterMarkets", "exitMarket"]
            · rw [controllerModuleExport, if_pos hctl] at heq
              exact FuncRef.noConfusion (Option.some.inj heq)
            · rw [controllerModuleExport, if_neg hctl] at heq
              exact Option.noConfusion heq

/-- A closed instance of claim C10: with empty spread modules the
VAI-named property is `undefined` while `claimUcore` is the comp
function. -/
theorem claim10_witness :
    mkInstance (fun _ => none) (fun _ => none) (fun _ => none)
      "getMintableVAI" = none
    ∧ mkInstance (fun _ => none) (fun _ => none) (fun _ => none)
        "claimUcore" = some (.compFn "claimUcore") :=
  ⟨(claim10_instance_bindings (fun _ => none) (fun _ => none) (fun _ => none)
      (fun _ _ h => Option.noConfusion h) (fun _ _ h => Option.noConfusion h)
      (fun _ _ h => Option.noConfusion h)).2.2.2.2.1 "getMintableVAI" (by decide),
    (claim10_instance_bindings (fun _ => none) (fun _ => none) (fun _ => none)
      (fun _ _ h => Option.noConfusion h) (fun _ _ h => Option.noConfusion h)
      (fun _ _ h => Option.noConfusion h)).1⟩

/-- For address characters, uppercasing commutes with lowercasing and is
idempotent. -/
theorem addrHexChars_facts : ∀ c ∈ addrHexChars,
    (Char.toUpper c).toLower = c.toLower
    ∧ Char.toUpper (Char.toUpper c) = Char.toUpper c := by decide

/-- Unfolding lemma: `String.toList` undoes `String.mk`. -/
theorem toList_mk (l : List Char) : (String.mk l).toList = l := rfl

/-- The function `checksumChar` returns either the character or its uppercase. -/
theorem checksumChar_cases (hash : List Char) (i : Nat) (c : Char) :
    checksumChar hash i c = c ∨ checksumChar hash i c = c.toUpper := by
  unfold checksumChar
  cases hg : hash.get? i with
  | none => exact .inl rfl
  | some h =>
    dsimp only
    cases hv : hexVal h with
    | none => exact .inl rfl
    | some v =>
      dsimp only
      by_cases h8 : 8 ≤ v
      · rw [if_pos h8]; exact .inr rfl
      · rw [if_neg h8]; exact .inl rfl

/-- The function `checksumChar` does not change the lowercased character. -/
theorem checksumChar_toLower (hash : List Char) (i : Nat) (c : Char)
    (hc : (Char.toUpper c).toLower = c.toLower) :
    (checksumChar hash i c).toLower = c.toLower := by
  rcases checksumChar_cases hash i c with h | h <;> rw [h]
  exact hc

/-- The function `checksumChar` is idempotent on characters with idempotent
uppercasing. -/
theorem checksumChar_idem (hash : List Char) (i : Nat) (c : Char)
    (hc : Char.toUpper (Char.toUpper c) = Char.toUpper c) :
    checksumChar hash i (checksumChar hash i c) = checksumChar hash i c := by
  rcases checksumChar_cases hash i c with h | h
  · rw [h]; exact h
  · rw [h]
    rcases checksumChar_cases hash i c.toUpper with h2 | h2
    · exact h2
    · rw [h2, hc]

/-- The checksum loop does not change the lowercased character list. -/
theorem checksumMap_toLower (hash : List Char) :
    ∀ (l : List Char) (i : Nat),
      (∀ c ∈ l, (Char.toUpper c).toLower = c.toLower) →
      (checksumMap hash i l).map Char.toLower = l.map Char.toLower := by
  intro l
  induction l with
  | nil => intro i _; rfl
  | cons c cs ih =>
    intro i h
    simp only [checksumMap, List.map_cons]
    rw [checksumChar_toLower hash i c (h c (List.mem_cons_self c cs))]
    rw [ih (i + 1) (fun x hx => h x (List.mem_cons_of_mem c hx))]

/-- The checksum loop is idempotent (at matching start indices) on
character lists with idempotent uppercasing. -/
theorem checksumMap_idem (hash : List Char) :
    ∀ (l : List Char) (i : Nat),
      (∀ c ∈ l, Char.toUpper (Char.toUpper c) = Char.toUpper c) →
      checksumMap hash i (checksumMap hash i l) = checksumMap hash i l := by
  intro l
  induction l with
  | nil => intro i _; rfl
  | cons c cs ih =>
    intro i h
    simp only [checksumMap]
    rw [checksumChar_idem hash i c (h c (List.mem_cons_self c cs))]
    rw [ih (i + 1) (fun x hx => h x (List.mem_cons_of_mem c hx))]

/-- Claim C9 counterexample: `toChecksumAddress` is NOT case-insensitive:
on the all-uppercase spelling of the EIP-55 example address it returns
its input unchanged, which differs from the checksum of the lowercase
spelling. -/
theorem claim9_counterexample :
    String.mk (exampleCaps.toList.map Char.toLower) = exampleLow
    ∧ toChecksumAddress exampleCaps ≠ toChecksumAddress exampleLow := by
  refine ⟨by decide, ?_⟩
  rw [checksum_exampleCaps, checksum_exampleLow]
  decide

/-- Claim C9 (amended): `toChecksumAddress` is idempotent on address
strings over the hexadecimal alphabet, and every checksumming function
forwards exactly `toChecksumAddress` of the spelling it was given (shown
for `delegate`); but it is not case-insensitive — characters that are
already uppercase at positions whose hash digit is below 8 survive, so
distinct mixed-case spellings of the same address can be forwarded as
distinct strings. -/
theorem claim9_checksum_idempotent :
    (∀ a b : String, (∀ c ∈ a.toList, c ∈ addrHexChars) →
      toChecksumAddress a = some b → toChecksumAddress b = some b)
    ∧ (∀ (addr : String → String → String) (st : UcoreState) (s cs : String),
        toChecksumAddress s = some cs →
        delegate addr st (.vstr s) =
          .ok ⟨addr st.resolvedNet.name "UCORE", "delegate", [.str cs]⟩) := by
  constructor
  · intro a b hc hab
    simp only [toChecksumAddress] at hab
    split at hab
    · exact Option.noConfusion hab
    · next h40 =>
      have hb := Option.some.inj hab
      subst hb
      simp only [toChecksumAddress, toList_mk]
      have e1 := checksumMap_toLower
        (keccak256HexChars ((((a.toList.map Char.toLower).drop 2).take 40).map
          (fun c => c.toNat % 256)))
        a.toList 0 (fun c hcc => (addrHexChars_facts c (hc c hcc)).1)
      rw [e1, if_neg h40]
      rw [checksumMap_idem _ a.toList 0
        (fun c hcc => (addrHexChars_facts c (hc c hcc)).2)]
  · intro addr st s cs h
    simp [delegate, h, currentNetwork_netId]

/-- A closed instance of claim C9's amended statement: checksumming the
already-checksummed example spelling returns it unchanged. -/
theorem claim9_witness : toChecksumAddress exampleChk = some exampleChk :=
  claim9_checksum_idempotent.1 exampleLow exampleChk (by decide)
    checksum_exampleLow
